import Mathlib

/-!
Verification development for the hoopp_risk audit/refinement control loop.

The definitions below are a shallow embedding of the Python sources
src/agent_logic.py, src/skills.py, src/skills_v2.py and src/agent_logic_gov.py.
Python floats are modelled as rationals, Python dicts with possibly missing
keys as structures of Option fields, and raised exceptions as Except values.
The external language model call (the only network dependency) is abstracted
by the outcome value it produces, since the constructed prompt string is
consumed only by that external call.
-/

namespace HooppRisk

/-! ## Text scanning helpers

The deterministic extractor in agent_logic.py uses re.search with the three
patterns (\d+)\s*%, (\d+)\s*bp and equity.*?(-?\d+)\s*%.  The functions below
implement exactly the leftmost match semantics of those patterns on a list of
characters: a maximal digit run, optionally preceded by a minus sign for the
equity pattern, followed by whitespace and the trailing literal.  Shrinking a
greedy digit run can never rescue a failed match here (the character after a
shortened run is a digit, which is neither whitespace nor the literal), so
maximal-run scanning is an exact model of the regex backtracking.
-/

/-- Python str.lower, restricted to the ASCII inputs used by the program. -/
def pyLower (cs : List Char) : List Char := cs.map Char.toLower

/-- Python regex whitespace class for ASCII text. -/
def isPySpace (c : Char) : Bool :=
  c = ' ' || c = '\t' || c = '\n' || c = '\r' || c = '\x0b' || c = '\x0c'

/-- Splits a maximal leading digit run off a character list. -/
def takeDigits : List Char → List Char × List Char
  | [] => ([], [])
  | c :: cs =>
    if c.isDigit then
      let p := takeDigits cs
      (c :: p.1, p.2)
    else ([], c :: cs)

/-- Drops leading regex whitespace. -/
def skipSpaces : List Char → List Char
  | [] => []
  | c :: cs => if isPySpace c then skipSpaces cs else c :: cs

/-- Numeric value of a digit run. -/
def digitsToNat (ds : List Char) : ℕ :=
  ds.foldl (fun a c => 10 * a + (c.toNat - 48)) 0

/-- Leftmost match of the pattern (\d+)\s*% . -/
def findPercent : List Char → Option ℕ
  | [] => none
  | c :: cs =>
    if c.isDigit then
      let p := takeDigits (c :: cs)
      match skipSpaces p.2 with
      | '%' :: _ => some (digitsToNat p.1)
      | _ => findPercent cs
    else findPercent cs

/-- Leftmost match of the pattern (\d+)\s*bp . -/
def findBp : List Char → Option ℕ
  | [] => none
  | c :: cs =>
    if c.isDigit then
      let p := takeDigits (c :: cs)
      match skipSpaces p.2 with
      | 'b' :: 'p' :: _ => some (digitsToNat p.1)
      | _ => findBp cs
    else findBp cs

/-- The signed number part (-?\d+) of the equity pattern, at the current
position: a minus sign is consumed only when digits follow it. -/
def matchSignedNum : List Char → Option (ℤ × List Char)
  | [] => none
  | '-' :: cs =>
    match takeDigits cs with
    | ([], _) => none
    | (ds, r) => some (-(digitsToNat ds : ℤ), r)
  | c :: cs =>
    if c.isDigit then
      let p := takeDigits (c :: cs)
      some ((digitsToNat p.1 : ℤ), p.2)
    else none

/-- The lazy tail .*?(-?\d+)\s*% of the equity pattern: scan forward for the
first signed number followed by whitespace and a percent sign; the lazy dot
cannot cross a newline. -/
def lazyFindShock : List Char → Option ℤ
  | [] => none
  | c :: cs =>
    match matchSignedNum (c :: cs) with
    | some (v, r) =>
      match skipSpaces r with
      | '%' :: _ => some v
      | _ => if c = '\n' then none else lazyFindShock cs
    | none => if c = '\n' then none else lazyFindShock cs

/-- Leftmost match of equity.*?(-?\d+)\s*% : at each occurrence of the literal
equity, try the lazy tail; on failure resume the search further right. -/
def findEquityNum : List Char → Option ℤ
  | [] => none
  | c :: cs =>
    if List.isPrefixOf "equity".data (c :: cs) then
      match lazyFindShock ((c :: cs).drop 6) with
      | some v => some v
      | none => findEquityNum cs
    else findEquityNum cs

/-- Substring test, modelling the Python expression kw in text. -/
def containsSub (pat : List Char) : List Char → Bool
  | [] => pat.isEmpty
  | c :: t => List.isPrefixOf pat (c :: t) || containsSub pat t

/-- Models any(kw in query_lower for kw in kws). -/
def kwAny (ql : List Char) (kws : List String) : Bool :=
  kws.any (fun k => containsSub k.data ql)

/-- Python or-with-default over an optional float: both None and 0.0 are falsy,
so the expression x or d replaces an absent or zero value with d. -/
def pyOrQ (x : Option ℚ) (d : ℚ) : ℚ :=
  match x with
  | some v => if v = 0 then d else v
  | none => d

/-- Python or-with-default over an optional int: 0 is falsy. -/
def pyOrZ (x : Option ℤ) (d : ℤ) : ℤ :=
  match x with
  | some v => if v = 0 then d else v
  | none => d

/-- Integer percent display of a ratio.  The sources use the .0% and .1%
format specifiers; message text is never used for control flow, so all of
them are collapsed to this integer form here. -/
def pctFmt (q : ℚ) : String := toString (round (q * 100)) ++ "%"

/-! ## Extractors (src/agent_logic.py lines 363-386; the same bodies appear
verbatim in src/agent_logic_lg.py lines 510-530) -/

/-- Embeds _extract_percentage. -/
def _extract_percentage (text : List Char) : Option ℚ :=
  (findPercent text).map (fun (n : ℕ) => (n : ℚ) / 100)

/-- Embeds _extract_bp; the source lowercases its argument again. -/
def _extract_bp (text : List Char) : Option ℤ :=
  (findBp (pyLower text)).map (fun (n : ℕ) => (n : ℤ))

/-- Embeds _extract_equity_shock: a negative captured value v gives v/100,
any other captured value v gives -v/100. -/
def _extract_equity_shock (text : List Char) : Option ℚ :=
  (findEquityNum (pyLower text)).map
    (fun (v : ℤ) => if v < 0 then (v : ℚ) / 100 else -(v : ℚ) / 100)

/-! ## Data model (src/agent_logic.py lines 32-85) -/

/-- Embeds the ThinkingStep dataclass. -/
structure ThinkingStep where
  node : String
  status : String
  message : String
  detail : Option String := none
deriving DecidableEq, Repr

/-- Embeds the NodeType enum. -/
inductive NodeType
  | analyze
  | calculate
  | audit
  | refine
  | respond
deriving DecidableEq, Repr

/-- Risk context dictionary; the five scalar keys read by _calculate_stress
are modelled as Option fields so that a missing key can be represented. -/
structure Ctx where
  total_assets : Option ℚ := none
  total_liabilities : Option ℚ := none
  funded_status : Option ℚ := none
  asset_dur : Option ℚ := none
  liability_dur : Option ℚ := none
deriving DecidableEq, Repr

/-- The params dictionary written by _node_analyze and _node_refine. -/
structure Params where
  hedge_ratio : Option ℚ := none
  rate_bp : Option ℤ := none
  equity_pct : Option ℚ := none
  refined : Bool := false
deriving DecidableEq, Repr

/-- Result dictionary of _calculate_stress (the type and scenario tags of the
source dictionary are carried by the surrounding CalcResult constructor). -/
structure StressOut where
  rate_bp : ℤ
  equity_pct : ℚ
  stressed_funded : ℚ
  delta_funded : ℚ
  stressed_assets : ℚ
  stressed_liabilities : ℚ
  stressed_surplus : ℚ
deriving DecidableEq, Repr

/-- The calculation_result dictionary, tagged by its type key. -/
inductive CalcResult
  | stress (out : StressOut)
  | hedge (proposed_ratio : ℚ)
  | query
deriving DecidableEq, Repr

/-- The audit_result dictionary built by _node_audit.  The PASS dictionary of
the source has no recommendation key, which is modelled as none. -/
structure AuditResult where
  status : String
  message : String
  proposed : ℚ
  max_allowed : ℚ
  recommendation : Option ℚ := none
deriving DecidableEq, Repr

/-- Embeds the AgentState dataclass.  The system_prompt and api_key fields
only feed the external language model call and are dropped together with it;
intent keeps the string tags of the source. -/
structure AgentState where
  user_query : List Char
  ctx : Ctx
  thinking_steps : List ThinkingStep := []
  intent : Option String := none
  params : Params := {}
  calculation_result : Option CalcResult := none
  audit_result : Option AuditResult := none
  final_response : Option String := none
  current_node : NodeType := NodeType.analyze
  iteration : ℕ := 0
  max_iterations : ℕ := 3
deriving DecidableEq, Repr

/-- COMPLIANCE_LIMITS max_hedge_ratio in agent_logic.py. -/
def COMPLIANCE_LIMITS_max_hedge_ratio : ℚ := 80 / 100

/-- Appends a freshly created ThinkingStep. -/
def pushStep (s : AgentState) (t : ThinkingStep) : AgentState :=
  { s with thinking_steps := s.thinking_steps ++ [t] }

/-- Models the in-place mutation of thinking_steps[-1]. -/
def setLastStep (f : ThinkingStep → ThinkingStep) : List ThinkingStep → List ThinkingStep
  | [] => []
  | [t] => [f t]
  | t :: ts => t :: setLastStep f ts

/-- Status of the last recorded ThinkingStep. -/
def lastStatus (ts : List ThinkingStep) : Option String :=
  ts.getLast?.map (fun t => t.status)

/-- Message of the last recorded ThinkingStep. -/
def lastMessage (ts : List ThinkingStep) : Option String :=
  ts.getLast?.map (fun t => t.message)

/-! ## Nodes of the manual loop (src/agent_logic.py lines 92-294) -/

/-- Intent keyword lists of _node_analyze. -/
def hedgeKws : List String := ["hedge", "hedging", "adjust hedge", "hedge ratio"]

/-- Stress intent keywords. -/
def stressKws : List String := ["stress", "scenario", "shock", "crisis", "what if"]

/-- Limit intent keywords. -/
def limitKws : List String := ["limit", "breach", "warning", "compliance"]

/-- Shared tail of _node_analyze: finalize the running step and route to
CALCULATE for hedge and stress intents, otherwise to RESPOND. -/
def finishAnalyze (s : AgentState) (detail : String) : AgentState :=
  let intentName := (s.intent.getD "").toUpper
  let ts := setLastStep (fun t => { t with status := "success", message := "Intent: " ++ intentName, detail := some detail }) s.thinking_steps
  let nxt := if s.intent = some "hedge" ∨ s.intent = some "stress" then NodeType.calculate
    else NodeType.respond
  { s with thinking_steps := ts, current_node := nxt }

/-- Embeds _node_analyze.  Note the Python falsy-or defaults: an extracted
ratio of 0 percent falls back to 0.70, a 0bp rate shock to 100bp and a zero
equity shock to -15 percent. -/
def _node_analyze (state : AgentState) : AgentState :=
  let s := pushStep state ⟨"🔍 Analyze", "running", "Understanding user intent...", none⟩
  let ql := pyLower s.user_query
  if kwAny ql hedgeKws then
    let hr := pyOrQ (_extract_percentage ql) (70 / 100)
    let s := { s with intent := some "hedge", params := { hedge_ratio := some hr } }
    finishAnalyze s ("Hedge request detected: " ++ pctFmt hr)
  else if kwAny ql stressKws then
    let rate_bp := pyOrZ (_extract_bp ql) 100
    let equity_pct := pyOrQ (_extract_equity_shock ql) (-(15 / 100 : ℚ))
    let s := { s with intent := some "stress", params := { rate_bp := some rate_bp, equity_pct := some equity_pct } }
    finishAnalyze s
      ("Stress test: " ++ toString rate_bp ++ "bp rate, " ++ pctFmt equity_pct ++ " equity")
  else if kwAny ql limitKws then
    let s := { s with intent := some "limits", params := {} }
    finishAnalyze s "Limit status check"
  else
    let s := { s with intent := some "query", params := {} }
    finishAnalyze s "General information query"

/-- Dictionary access ctx[key]; a missing key raises KeyError (the Python
exception text quotes the key name; the quotes are omitted here). -/
def ctxGet (v : Option ℚ) (key : String) : Except String ℚ :=
  match v with
  | some x => Except.ok x
  | none => Except.error ("KeyError: " ++ key)

/-- Embeds _calculate_stress (src/agent_logic.py lines 389-419).  A zero
stressed liability value raises ZeroDivisionError in Python and is mapped to
an error here as well. -/
def _calculate_stress (ctx : Ctx) (params : Params) : Except String StressOut := do
  let rate_bp := params.rate_bp.getD 100
  let equity_pct := params.equity_pct.getD (-(15 / 100 : ℚ))
  let base_assets ← ctxGet ctx.total_assets "total_assets"
  let base_liabilities ← ctxGet ctx.total_liabilities "total_liabilities"
  let base_funded ← ctxGet ctx.funded_status "funded_status"
  let asset_dur ← ctxGet ctx.asset_dur "asset_dur"
  let liability_dur ← ctxGet ctx.liability_dur "liability_dur"
  let rate_impact_assets := -base_assets * asset_dur * ((rate_bp : ℚ) / 10000) * (4 / 10)
  let rate_impact_liab := -base_liabilities * liability_dur * ((rate_bp : ℚ) / 10000)
  let equity_impact := base_assets * (34 / 100) * equity_pct
  let stressed_assets := base_assets + rate_impact_assets + equity_impact
  let stressed_liab := base_liabilities + rate_impact_liab
  if stressed_liab = 0 then
    Except.error "float division by zero"
  else
    Except.ok
      { rate_bp := rate_bp
        equity_pct := equity_pct
        stressed_funded := stressed_assets / stressed_liab
        delta_funded := stressed_assets / stressed_liab - base_funded
        stressed_assets := stressed_assets
        stressed_liabilities := stressed_liab
        stressed_surplus := stressed_assets - stressed_liab }

/-- Shared tail of the successful branches of _node_calculate: finalize the
step and route to AUDIT exactly for the hedge intent. -/
def calcFinish (s : AgentState) (summary : String) : AgentState :=
  let ts := setLastStep (fun t => { t with status := "success", message := "Calculation complete", detail := some summary }) s.thinking_steps
  let nxt := if s.intent = some "hedge" then NodeType.audit else NodeType.respond
  { s with thinking_steps := ts, current_node := nxt }

/-- Embeds _node_calculate.  The try/except of the source catches the
exception raised inside _calculate_stress, marks the step as an error and
routes directly to RESPOND. -/
def _node_calculate (state : AgentState) : AgentState :=
  let s := pushStep state ⟨"⚙️ Calculate", "running", "Running risk calculations...", none⟩
  if s.intent = some "stress" then
    match _calculate_stress s.ctx s.params with
    | Except.ok result =>
      let s := { s with calculation_result := some (CalcResult.stress result) }
      calcFinish s ("Stressed Funded: " ++ pctFmt result.stressed_funded)
    | Except.error e =>
      let ts := setLastStep (fun t => { t with status := "error", message := "Calculation failed: " ++ e }) s.thinking_steps
      { s with thinking_steps := ts, current_node := NodeType.respond }
  else if s.intent = some "hedge" then
    let pr := s.params.hedge_ratio.getD (70 / 100)
    let s := { s with calculation_result := some (CalcResult.hedge pr) }
    calcFinish s ("Proposed hedge ratio: " ++ pctFmt pr)
  else
    let s := { s with calculation_result := some CalcResult.query }
    calcFinish s "No calculation needed"

/-- Embeds _node_audit (src/agent_logic.py lines 179-219). -/
def _node_audit (state : AgentState) : AgentState :=
  let s := pushStep state ⟨"🛡️ Audit", "running", "Checking compliance limits...", none⟩
  let proposed_ratio := s.params.hedge_ratio.getD 0
  let max_ratio := COMPLIANCE_LIMITS_max_hedge_ratio
  if proposed_ratio ≤ max_ratio then
    let ar : AuditResult :=
      { status := "PASS"
        message := "Hedge ratio " ++ pctFmt proposed_ratio ++ " is within limit ("
          ++ pctFmt max_ratio ++ ")"
        proposed := proposed_ratio
        max_allowed := max_ratio
        recommendation := none }
    let ts := setLastStep (fun t => { t with status := "success", message := "✅ Compliance check passed", detail := some ar.message }) s.thinking_steps
    { s with audit_result := some ar, thinking_steps := ts, current_node := NodeType.respond }
  else
    let ar : AuditResult :=
      { status := "FAIL"
        message := "Hedge ratio " ++ pctFmt proposed_ratio ++ " exceeds limit ("
          ++ pctFmt max_ratio ++ ")"
        proposed := proposed_ratio
        max_allowed := max_ratio
        recommendation := some (max_ratio * (95 / 100)) }
    let ts := setLastStep (fun t => { t with status := "warning", message := "⚠️ Compliance check failed", detail := some ar.message }) s.thinking_steps
    let nxt := if s.iteration < s.max_iterations then NodeType.refine else NodeType.respond
    { s with audit_result := some ar, thinking_steps := ts, current_node := nxt }

/-- Failure tail of _node_refine. -/
def refineFail (s : AgentState) : AgentState :=
  let ts := setLastStep (fun t => { t with status := "error", message := "Unable to find compliant alternative" }) s.thinking_steps
  { s with thinking_steps := ts, current_node := NodeType.respond }

/-- Embeds _node_refine (src/agent_logic.py lines 222-248).  The source
guard is the Python truthiness test audit_result.get(recommendation key):
an absent audit result, an absent recommendation and a zero recommendation
all take the failure branch. -/
def _node_refine (state : AgentState) : AgentState :=
  let s := pushStep state ⟨"🔄 Refine", "running", "Auto-adjusting to compliant parameters...", none⟩
  let s := { s with iteration := s.iteration + 1 }
  match s.audit_result with
  | some ar =>
    match ar.recommendation with
    | some r =>
      if r = 0 then refineFail s
      else
        let ts := setLastStep (fun t => { t with status := "success", message := "Adjusted to " ++ pctFmt r, detail := some "Re-running audit with compliant parameters" }) s.thinking_steps
        { s with
          params := { s.params with hedge_ratio := some r, refined := true },
          thinking_steps := ts,
          current_node := NodeType.audit }
    | none => refineFail s
  | none => refineFail s

/-- Embeds _node_respond (src/agent_logic.py lines 251-294).  The prompt the
source assembles is consumed only by the external language model call, which
is abstracted by its outcome: ok carries the model response, error carries
the exception text caught by the try/except of the source. -/
def _node_respond (llm : Except String String) (state : AgentState) : AgentState :=
  let s := pushStep state ⟨"💬 Respond", "running", "Generating response...", none⟩
  match llm with
  | Except.ok resp =>
    let ts := setLastStep (fun t => { t with status := "success", message := "Response ready" }) s.thinking_steps
    { s with final_response := some resp, thinking_steps := ts }
  | Except.error e =>
    let ts := setLastStep (fun t => { t with status := "error", message := "Error: " ++ e }) s.thinking_steps
    { s with final_response := some ("I apologize, but I encountered an error: " ++ e), thinking_steps := ts }

/-! ## The run loop (src/agent_logic.py lines 301-356) -/

/-- The node_handlers dispatch table. -/
def stepNode (llm : Except String String) (s : AgentState) : AgentState :=
  match s.current_node with
  | NodeType.analyze => _node_analyze s
  | NodeType.calculate => _node_calculate s
  | NodeType.audit => _node_audit s
  | NodeType.refine => _node_refine s
  | NodeType.respond => _node_respond llm s

/-- The break condition of the while loop: the current node is RESPOND and a
final response has been produced. -/
def loopDone (s : AgentState) : Bool :=
  decide (s.current_node = NodeType.respond) && s.final_response.isSome

/-- The while loop of run_agent: at most fuel handler executions, stopping
early when loopDone holds after a step.  The second component counts the
executed node handlers. -/
def loopCount (step : AgentState → AgentState) : ℕ → AgentState → AgentState × ℕ
  | 0, s => (s, 0)
  | n + 1, s =>
    let t := step s
    if loopDone t then (t, 1)
    else
      let p := loopCount step n t
      (p.1, p.2 + 1)

/-- The hard step budget max_steps of run_agent. -/
def MAX_STEPS : ℕ := 10

/-- Fresh AgentState for a user turn. -/
def initState (user_query : List Char) (ctx : Ctx) : AgentState :=
  { user_query := user_query, ctx := ctx }

/-- Embeds run_agent. -/
def run_agent (llm : Except String String) (user_query : List Char) (ctx : Ctx) :
    String × List ThinkingStep :=
  let final := (loopCount (stepNode llm) MAX_STEPS (initState user_query ctx)).1
  (final.final_response.getD "Unable to generate response", final.thinking_steps)

/-! ## Skills layer (src/skills.py lines 132-189) -/

/-- Result dictionary of check_hedge_compliance in skills.py. -/
structure ComplianceResult where
  status : String
  proposed_ratio : ℚ
  max_allowed : ℚ
  message : String
  recommendation : Option ℚ := none
  recommendation_message : Option String := none
deriving DecidableEq, Repr

/-- The per-hedge-type LIMITS table lookup followed by the max_hedge_ratio
access: duration 0.80, fx 0.90, equity 0.50; an unknown hedge type falls
back to the duration entry (every entry carries the key, so the inner 1.0
default of the source is unreachable). -/
def skillsMaxHedgeRatio (hedge_type : String) : ℚ :=
  if hedge_type = "duration" then 80 / 100
  else if hedge_type = "fx" then 90 / 100
  else if hedge_type = "equity" then 50 / 100
  else 80 / 100

/-- Embeds check_hedge_compliance of skills.py; the ctx argument is unused by
the source body as well. -/
def check_hedge_compliance (ctx : Ctx) (proposed_hedge_ratio : ℚ) (hedge_type : String) :
    ComplianceResult :=
  let max_ratio := skillsMaxHedgeRatio hedge_type
  if proposed_hedge_ratio ≤ max_ratio then
    { status := "PASS"
      proposed_ratio := proposed_hedge_ratio
      max_allowed := max_ratio
      message := "✅ Hedge ratio " ++ pctFmt proposed_hedge_ratio ++ " is within limit ("
        ++ pctFmt max_ratio ++ ")"
      recommendation := none }
  else
    let compliant_ratio := max_ratio * (95 / 100)
    { status := "FAIL"
      proposed_ratio := proposed_hedge_ratio
      max_allowed := max_ratio
      message := "❌ Hedge ratio " ++ pctFmt proposed_hedge_ratio ++ " exceeds limit ("
        ++ pctFmt max_ratio ++ ")"
      recommendation := some compliant_ratio
      recommendation_message := some ("💡 Suggested compliant ratio: " ++ pctFmt compliant_ratio) }

/-! ## Governed variant (src/agent_logic_gov.py) -/

/-- Result dictionary of _execute_check_hedge_compliance in
agent_logic_gov.py (lines 161-193). -/
structure GovComplianceResult where
  status : String
  proposed_ratio : ℚ
  max_allowed : ℚ
  hedge_type : String
  message : String
  recommendation : Option ℚ := none
  recommendation_message : Option String := none
  requires_approval : Bool
deriving DecidableEq, Repr

/-- COMPLIANCE_LIMITS lookup of skills_v2.py followed by the max_hedge_ratio
access with default 0.80; the numeric entries coincide with skills.py. -/
def govMaxHedgeRatio (hedge_type : String) : ℚ :=
  if hedge_type = "duration" then 80 / 100
  else if hedge_type = "fx" then 90 / 100
  else if hedge_type = "equity" then 50 / 100
  else 80 / 100

/-- Embeds _execute_check_hedge_compliance. -/
def _execute_check_hedge_compliance (ctx : Ctx) (ratio : ℚ) (hedge_type : String) :
    GovComplianceResult :=
  let max_ratio := govMaxHedgeRatio hedge_type
  if ratio ≤ max_ratio then
    { status := "PASS"
      proposed_ratio := ratio
      max_allowed := max_ratio
      hedge_type := hedge_type
      message := "Hedge ratio " ++ pctFmt ratio ++ " is within limit ("
        ++ pctFmt max_ratio ++ ")"
      recommendation := none
      requires_approval := false }
  else
    let compliant_ratio := max_ratio * (95 / 100)
    { status := "FAIL"
      proposed_ratio := ratio
      max_allowed := max_ratio
      hedge_type := hedge_type
      message := "Hedge ratio " ++ pctFmt ratio ++ " exceeds limit ("
        ++ pctFmt max_ratio ++ "), approval required"
      recommendation := some compliant_ratio
      recommendation_message := some ("Recommended adjustment: " ++ pctFmt compliant_ratio
        ++ " (95% of limit)")
      requires_approval := true }

/-- The tool_input dictionary keys consulted by the check_hedge_compliance
branch of node_execute_tool. -/
structure ToolParams where
  ratio : Option ℚ := none
  hedge_ratio : Option ℚ := none
  hedge_type : Option String := none
deriving DecidableEq, Repr

/-- The check_hedge_compliance branch of node_execute_tool (lines 378-385):
ratio = tool_params.get(ratio key) or tool_params.get(hedge_ratio key, 0.70),
so an absent or zero ratio value falls back to the hedge_ratio lookup. -/
def node_execute_tool_check (ctx : Ctx) (tool_params : ToolParams) : GovComplianceResult :=
  let ratio := pyOrQ tool_params.ratio (tool_params.hedge_ratio.getD (70 / 100))
  _execute_check_hedge_compliance ctx ratio (tool_params.hedge_type.getD "duration")

/-- The pending approval snapshot consumed by process_approval: the fields of
the saved state that node_handle_approval reads.  tool_output is the result
dictionary of the compliance tool; an empty dictionary is none. -/
structure PendingState where
  thinking_steps : List ThinkingStep := []
  tool_output : Option GovComplianceResult := none
  final_response : String := ""
deriving DecidableEq, Repr

/-- Return value of node_handle_approval as consumed by process_approval. -/
structure ApprovalOut where
  final_response : String
  thinking_steps : List ThinkingStep
deriving DecidableEq, Repr

/-- Embeds node_handle_approval (src/agent_logic_gov.py lines 602-647).
The tool_output.get(recommendation key, 0) access on an absent dictionary
yields 0; the max_allowed access likewise. -/
def node_handle_approval (approval_status : String) (st : PendingState) : ApprovalOut :=
  if approval_status = "approved" then
    let new_ratio := (st.tool_output.bind (fun t => t.recommendation)).getD 0
    let max_allowed := (st.tool_output.map (fun t => t.max_allowed)).getD 0
    { final_response := "✅ **Operation Approved**\n\nHedge ratio adjusted to **"
        ++ pctFmt new_ratio ++ "** (within " ++ pctFmt max_allowed
        ++ " limit)\n\nThis action has been logged to the audit trail."
      thinking_steps := st.thinking_steps ++
        [⟨"✅ Approved", "success", "Approved: adjusted to " ++ pctFmt new_ratio,
          some "Action logged to audit trail"⟩] }
  else if approval_status = "rejected" then
    { final_response := "❌ **Operation Rejected**\n\nThe hedge adjustment request has been cancelled. Current configuration remains unchanged."
      thinking_steps := st.thinking_steps ++
        [⟨"❌ Rejected", "error", "Rejected: operation cancelled", none⟩] }
  else
    { final_response := st.final_response, thinking_steps := st.thinking_steps }

/-- Embeds process_approval (src/agent_logic_gov.py lines 799-826): it merely
rebuilds the state from the pending snapshot and runs node_handle_approval;
the ctx and api_key arguments are passed but unused by the resolution, and
the pending snapshot itself is never marked as consumed. -/
def process_approval (approval_status : String) (ctx : Ctx) (api_key : String)
    (pending_state : PendingState) : ApprovalOut :=
  node_handle_approval approval_status pending_state

/-! ## Concrete states used by the theorems below -/

/-- An AgentState about to enter AUDIT with a hedge intent and proposed
ratio r after i completed refinement iterations. -/
def mkHedgeAuditState (ctx : Ctx) (r : ℚ) (i : ℕ) : AgentState :=
  { user_query := [], ctx := ctx, intent := some "hedge",
    params := { hedge_ratio := some r }, current_node := NodeType.audit, iteration := i }

/-- The Scenario A user text of the specification. -/
def scenarioAQuery : List Char := "I want to increase our duration hedge ratio to 85%".toList

/-- A stress-intent state whose risk context is missing every required field. -/
def stressNoCtxState : AgentState :=
  { user_query := [], ctx := {}, intent := some "stress", current_node := NodeType.calculate }

/-- A user text carrying an equity shock phrased as a positive number. -/
def equityShockQuery : List Char := "equity down 15%".toList

/-- A pending approval snapshot holding a failed duration-hedge compliance
result, as saved when the governed variant interrupts for sign-off. -/
def pendingExample : PendingState :=
  { thinking_steps := [], tool_output := some (_execute_check_hedge_compliance {} (85 / 100) "duration") }

/-- The dictionary-shaped no-op outcome: response and trace returned exactly
as stored in the pending snapshot. -/
def noopOutcome (st : PendingState) : ApprovalOut :=
  { final_response := st.final_response, thinking_steps := st.thinking_steps }

/-! ## Helper lemmas -/

theorem setLastStep_append_one (f : ThinkingStep → ThinkingStep) (t : ThinkingStep) :
    ∀ l : List ThinkingStep, setLastStep f (l ++ [t]) = l ++ [f t]
  | [] => rfl
  | [a] => rfl
  | a :: b :: rest => by
    have ih := setLastStep_append_one f t (b :: rest)
    simp only [List.cons_append] at ih ⊢
    simp [setLastStep, ih]

theorem lastStatus_append_one (l : List ThinkingStep) (t : ThinkingStep) :
    lastStatus (l ++ [t]) = some t.status := by
  unfold lastStatus
  rw [List.getLast?_concat]
  rfl

theorem lastMessage_append_one (l : List ThinkingStep) (t : ThinkingStep) :
    lastMessage (l ++ [t]) = some t.message := by
  unfold lastMessage
  rw [List.getLast?_concat]
  rfl

theorem skillsMaxHedgeRatio_nonneg (ht : String) : (0 : ℚ) ≤ skillsMaxHedgeRatio ht := by
  unfold skillsMaxHedgeRatio
  split_ifs <;> norm_num

theorem execute_check_proposed (ctx : Ctx) (r : ℚ) (ht : String) :
    (_execute_check_hedge_compliance ctx r ht).proposed_ratio = r := by
  unfold _execute_check_hedge_compliance
  by_cases h : r ≤ govMaxHedgeRatio ht <;> simp [h]

theorem loopCount_snd_le (step : AgentState → AgentState) :
    ∀ (n : ℕ) (s : AgentState), (loopCount step n s).2 ≤ n
  | 0, _ => by simp [loopCount]
  | n + 1, s => by
    have ih := loopCount_snd_le step n (step s)
    by_cases h : loopDone (step s)
    · simp [loopCount, h]
    · simp only [loopCount, h, if_false, Bool.false_eq_true]
      omega

theorem loopCount_unfold_ten (step : AgentState → AgentState) (s : AgentState) :
    loopCount step MAX_STEPS s =
      (if loopDone (step s) then (step s, 1)
       else ((loopCount step 9 (step s)).1, (loopCount step 9 (step s)).2 + 1)) := rfl

theorem loopCount_unfold_nine (step : AgentState → AgentState) (s : AgentState) :
    loopCount step 9 s =
      (if loopDone (step s) then (step s, 1)
       else ((loopCount step 8 (step s)).1, (loopCount step 8 (step s)).2 + 1)) := rfl

theorem loopCount_unfold_eight (step : AgentState → AgentState) (s : AgentState) :
    loopCount step 8 s =
      (if loopDone (step s) then (step s, 1)
       else ((loopCount step 7 (step s)).1, (loopCount step 7 (step s)).2 + 1)) := rfl

/-! ## Claim theorems -/

/-- C1: for every proposed hedge ratio and every hedge-type limit, the audit
result carries a recommendation iff its status is FAIL; on FAIL the
recommendation equals max_allowed times 0.95, hence is at most max_allowed,
and re-auditing the recommendation yields PASS; the same invariant holds for
the _node_audit node of the refinement loop. -/
theorem C1_recommendation_safety :
    ∀ (ctx : Ctx) (proposed : ℚ) (hedge_type : String),
      ((check_hedge_compliance ctx proposed hedge_type).recommendation.isSome ↔
        (check_hedge_compliance ctx proposed hedge_type).status = "FAIL")
      ∧ ((check_hedge_compliance ctx proposed hedge_type).status = "FAIL" →
          (check_hedge_compliance ctx proposed hedge_type).recommendation =
            some (skillsMaxHedgeRatio hedge_type * (95 / 100)))
      ∧ (∀ r : ℚ, (check_hedge_compliance ctx proposed hedge_type).recommendation = some r →
          r ≤ (check_hedge_compliance ctx proposed hedge_type).max_allowed
          ∧ (proposed > skillsMaxHedgeRatio hedge_type →
              (check_hedge_compliance ctx r hedge_type).status = "PASS"))
      ∧ (∀ (s : AgentState) (ar : AuditResult), (_node_audit s).audit_result = some ar →
          (ar.recommendation.isSome ↔ ar.status = "FAIL")
          ∧ ∀ r : ℚ, ar.recommendation = some r →
              r ≤ ar.max_allowed
              ∧ ((_node_audit { s with params := { s.params with hedge_ratio := some r } }).audit_result.map
                  AuditResult.status) = some "PASS") := by
  intro ctx proposed hedge_type
  have hm : (0 : ℚ) ≤ skillsMaxHedgeRatio hedge_type := skillsMaxHedgeRatio_nonneg hedge_type
  have hrec : skillsMaxHedgeRatio hedge_type * (95 / 100) ≤ skillsMaxHedgeRatio hedge_type := by
    nlinarith
  refine ⟨?_, ?_, ?_, ?_⟩
  · by_cases hp : proposed ≤ skillsMaxHedgeRatio hedge_type <;>
      simp [check_hedge_compliance, hp]
  · by_cases hp : proposed ≤ skillsMaxHedgeRatio hedge_type <;>
      simp [check_hedge_compliance, hp]
  · intro r hr
    by_cases hp : proposed ≤ skillsMaxHedgeRatio hedge_type
    · simp [check_hedge_compliance, hp] at hr
    · simp only [check_hedge_compliance, hp, if_false] at hr ⊢
      simp at hr
      subst hr
      refine ⟨by simpa using hrec, fun _ => ?_⟩
      simp [hrec]
  · intro s ar har
    by_cases hp : s.params.hedge_ratio.getD 0 ≤ COMPLIANCE_LIMITS_max_hedge_ratio
    · simp [_node_audit, pushStep, hp] at har
      subst har
      simp
    · have hrec80 : COMPLIANCE_LIMITS_max_hedge_ratio * (95 / 100) ≤ COMPLIANCE_LIMITS_max_hedge_ratio := by
        norm_num [COMPLIANCE_LIMITS_max_hedge_ratio]
      by_cases hi : s.iteration < s.max_iterations <;>
      · simp [_node_audit, pushStep, hp, hi] at har
        subst har
        refine ⟨by simp, fun r hr => ?_⟩
        simp at hr
        subst hr
        exact ⟨by simpa using hrec80, by simp [_node_audit, pushStep, hrec80]⟩

/-- C1 witness: at proposed ratio 0.85 and hedge type duration the limit is
exceeded, the recommendation is 0.76 and re-auditing 0.76 passes. -/
theorem C1_recommendation_safety_witness :
    (85 / 100 : ℚ) > skillsMaxHedgeRatio "duration"
    ∧ (check_hedge_compliance {} (85 / 100) "duration").recommendation = some (19 / 25)
    ∧ (check_hedge_compliance {} (19 / 25) "duration").status = "PASS" := by
  have h := C1_recommendation_safety {} (85 / 100) "duration"
  have hgt : (85 / 100 : ℚ) > skillsMaxHedgeRatio "duration" := by
    norm_num [skillsMaxHedgeRatio]
  have hr : (check_hedge_compliance {} (85 / 100) "duration").recommendation = some (19 / 25) := by
    norm_num [check_hedge_compliance, skillsMaxHedgeRatio]
  exact ⟨hgt, hr, ((h.2.2).1 (19 / 25) hr).2 hgt⟩

/-- C2: the run loop of run_agent executes at most 10 node handlers before
returning, for every transition behavior of the nodes (in particular for one
whose audit fails on every visit), independently of the max_iterations
counter. -/
theorem C2_step_budget :
    (∀ (step : AgentState → AgentState) (s : AgentState),
      (loopCount step MAX_STEPS s).2 ≤ 10)
    ∧ ∀ (llm : Except String String) (q : List Char) (ctx : Ctx),
      (loopCount (stepNode llm) MAX_STEPS (initState q ctx)).2 ≤ 10 := by
  refine ⟨fun step s => ?_, fun llm q ctx => ?_⟩
  · exact loopCount_snd_le step MAX_STEPS s
  · exact loopCount_snd_le (stepNode llm) MAX_STEPS (initState q ctx)

/-- C3: a proposed ratio at or below the limit always passes the audit — the
boundary is inclusive — and the REFINE state is never entered: the
skills-layer auditor returns PASS without a recommendation, and a full loop
run from the AUDIT state goes straight to RESPOND leaving the iteration
counter and the refined flag untouched. -/
theorem C3_inclusive_pass_no_refine :
    ∀ (ctx : Ctx) (r : ℚ) (hedge_type : String),
      (r ≤ skillsMaxHedgeRatio hedge_type →
        (check_hedge_compliance ctx r hedge_type).status = "PASS"
        ∧ (check_hedge_compliance ctx r hedge_type).recommendation = none)
      ∧ (r ≤ COMPLIANCE_LIMITS_max_hedge_ratio →
          ∀ (llm : Except String String) (i : ℕ),
            ((_node_audit (mkHedgeAuditState ctx r i)).audit_result.map AuditResult.status)
              = some "PASS"
            ∧ (_node_audit (mkHedgeAuditState ctx r i)).current_node = NodeType.respond
            ∧ (loopCount (stepNode llm) MAX_STEPS (mkHedgeAuditState ctx r i)).1.iteration = i
            ∧ (loopCount (stepNode llm) MAX_STEPS (mkHedgeAuditState ctx r i)).1.params.refined
                = false) := by
  intro ctx r hedge_type
  constructor
  · intro h
    constructor <;> simp [check_hedge_compliance, h]
  · intro h llm i
    refine ⟨?_, ?_, ?_, ?_⟩ <;>
    · cases llm <;>
        simp [loopCount_unfold_ten, loopCount_unfold_nine, stepNode, mkHedgeAuditState,
          _node_audit, _node_respond, pushStep, setLastStep, loopDone, h]

/-- C3 witness: a hedge request exactly at the 0.80 limit passes and never
enters REFINE. -/
theorem C3_inclusive_pass_no_refine_witness :
    ((80 / 100 : ℚ) ≤ skillsMaxHedgeRatio "duration"
      ∧ (check_hedge_compliance {} (80 / 100) "duration").status = "PASS")
    ∧ ((80 / 100 : ℚ) ≤ COMPLIANCE_LIMITS_max_hedge_ratio
      ∧ (loopCount (stepNode (Except.ok "ok")) MAX_STEPS
          (mkHedgeAuditState {} (80 / 100) 0)).1.params.refined = false) := by
  have h := C3_inclusive_pass_no_refine {} (80 / 100) "duration"
  have h1 : (80 / 100 : ℚ) ≤ skillsMaxHedgeRatio "duration" := by
    norm_num [skillsMaxHedgeRatio]
  have h2 : (80 / 100 : ℚ) ≤ COMPLIANCE_LIMITS_max_hedge_ratio := by
    norm_num [COMPLIANCE_LIMITS_max_hedge_ratio]
  exact ⟨⟨h1, (h.1 h1).1⟩, ⟨h2, (h.2 h2 (Except.ok "ok") 0).2.2.2⟩⟩

/-- C4: a run whose analyzed intent is stress, limits or query never executes
the audit node: the final state of the loop carries no audit result (the
audit node unconditionally stores one, so an absent audit result certifies
that AUDIT was never entered). -/
theorem C4_only_hedge_audited :
    ∀ (q : List Char) (ctx : Ctx) (llm : Except String String),
      ((_node_analyze (initState q ctx)).intent = some "stress"
        ∨ (_node_analyze (initState q ctx)).intent = some "limits"
        ∨ (_node_analyze (initState q ctx)).intent = some "query") →
      (loopCount (stepNode llm) MAX_STEPS (initState q ctx)).1.audit_result = none := by
  intro q ctx llm hint
  by_cases hk : kwAny (pyLower q) hedgeKws
  · exfalso
    have : (_node_analyze (initState q ctx)).intent = some "hedge" := by
      simp [_node_analyze, finishAnalyze, pushStep, initState, hk]
    rcases hint with h | h | h <;> rw [this] at h <;> simp at h
  · cases hs : kwAny (pyLower q) stressKws
    · cases hl : kwAny (pyLower q) limitKws
      · cases llm <;>
          simp [loopCount_unfold_ten, loopCount_unfold_nine, stepNode, initState,
            _node_analyze, finishAnalyze, _node_respond, pushStep, setLastStep,
            loopDone, hk, hs, hl]
      · cases llm <;>
          simp [loopCount_unfold_ten, loopCount_unfold_nine, stepNode, initState,
            _node_analyze, finishAnalyze, _node_respond, pushStep, setLastStep,
            loopDone, hk, hs, hl]
    · cases hres : _calculate_stress ctx
        { rate_bp := some (pyOrZ (_extract_bp (pyLower q)) 100),
          equity_pct := some (pyOrQ (_extract_equity_shock (pyLower q)) (-(15 / 100 : ℚ))) } <;>
      cases llm <;>
        simp [loopCount_unfold_ten, loopCount_unfold_nine, loopCount_unfold_eight,
          stepNode, initState, _node_analyze, finishAnalyze, _node_calculate, calcFinish,
          _node_respond, pushStep, setLastStep, loopDone, hk, hs, hres]

/-- C4 witness: the Scenario B stress-test text has a stress intent and its
run produces no audit result. -/
theorem C4_only_hedge_audited_witness :
    (_node_analyze (initState ("Run a stress test with rates up 100bp and equity down 15%".toList) {})).intent
      = some "stress"
    ∧ (loopCount (stepNode (Except.ok "ok")) MAX_STEPS
        (initState ("Run a stress test with rates up 100bp and equity down 15%".toList) {})).1.audit_result
      = none := by
  have h1 : (_node_analyze (initState ("Run a stress test with rates up 100bp and equity down 15%".toList) {})).intent
      = some "stress" := by decide
  exact ⟨h1, C4_only_hedge_audited _ {} (Except.ok "ok") (Or.inl h1)⟩

/-- C5: on the Scenario A text the deterministic extractor yields the hedge
intent with ratio 0.85; the audit returns FAIL against max_allowed 0.80 with
recommendation 0.76; one REFINE substitutes 0.76 into the proposal and routes
back to AUDIT, and the re-audit returns PASS. -/
theorem C5_scenario_a :
    (_node_analyze (initState scenarioAQuery {})).intent = some "hedge"
    ∧ (_node_analyze (initState scenarioAQuery {})).params.hedge_ratio = some (85 / 100)
    ∧ ((_node_audit (_node_calculate (_node_analyze (initState scenarioAQuery {})))).audit_result.map
        AuditResult.status) = some "FAIL"
    ∧ ((_node_audit (_node_calculate (_node_analyze (initState scenarioAQuery {})))).audit_result.map
        AuditResult.max_allowed) = some (80 / 100)
    ∧ (Option.bind
        (_node_audit (_node_calculate (_node_analyze (initState scenarioAQuery {})))).audit_result
        AuditResult.recommendation) = some (76 / 100)
    ∧ (_node_refine (_node_audit (_node_calculate (_node_analyze
        (initState scenarioAQuery {}))))).params.hedge_ratio = some (76 / 100)
    ∧ (_node_refine (_node_audit (_node_calculate (_node_analyze
        (initState scenarioAQuery {}))))).current_node = NodeType.audit
    ∧ ((_node_audit (_node_refine (_node_audit (_node_calculate (_node_analyze
        (initState scenarioAQuery {})))))).audit_result.map AuditResult.status) = some "PASS" := by
  have hkw : kwAny (pyLower scenarioAQuery) hedgeKws = true := by decide
  have hfp : findPercent (pyLower scenarioAQuery) = some 85 := by decide
  have hc1 : ¬((85 : ℚ) / 100 = 0) := by norm_num
  have hc2 : ¬((85 : ℚ) / 100 ≤ 80 / 100) := by norm_num
  have hc3 : (80 : ℚ) / 100 * (95 / 100) = 76 / 100 := by norm_num
  have hc4 : ¬((76 : ℚ) / 100 = 0) := by norm_num
  have hc5 : (76 : ℚ) / 100 ≤ 80 / 100 := by norm_num
  refine ⟨?_, ?_, ?_, ?_, ?_, ?_, ?_, ?_⟩ <;>
    simp [_node_analyze, initState, pushStep, finishAnalyze, _node_calculate, calcFinish,
      _node_audit, _node_refine, setLastStep, hkw, hfp, _extract_percentage, pyOrQ,
      COMPLIANCE_LIMITS_max_hedge_ratio, hc1, hc2, hc3, hc4, hc5]

/-- C6 counterexample: the pending snapshot is never marked as consumed and
process_approval is a pure function of it, so invoking the resolution a
second time on the already-resolved snapshot is neither an explicit error
nor a no-op echo of the stored state: it is a full second normal success
with a success step and the complete approval response. -/
theorem C6_double_resolution_counterexample :
    ¬(lastStatus (process_approval "approved" {} "" pendingExample).thinking_steps = some "error"
      ∨ process_approval "approved" {} "" pendingExample = noopOutcome pendingExample)
    ∧ lastStatus (process_approval "approved" {} "" pendingExample).thinking_steps = some "success"
    ∧ (process_approval "approved" {} "" pendingExample).final_response
        = "✅ **Operation Approved**\n\nHedge ratio adjusted to **76%** (within 80% limit)\n\nThis action has been logged to the audit trail." := by
  have hc2 : ¬((85 : ℚ) / 100 ≤ 80 / 100) := by norm_num
  have hc3 : (80 : ℚ) / 100 * (95 / 100) = 76 / 100 := by norm_num
  have hp76 : pctFmt (76 / 100) = "76%" := by
    unfold pctFmt
    have h : ((76 : ℚ) / 100) * 100 = 76 := by norm_num
    rw [h, round_ofNat]
    rfl
  have hp80 : pctFmt (80 / 100) = "80%" := by
    unfold pctFmt
    have h : ((80 : ℚ) / 100) * 100 = 80 := by norm_num
    rw [h, round_ofNat]
    rfl
  refine ⟨?_, ?_, ?_⟩ <;>
    simp [process_approval, node_handle_approval, pendingExample, noopOutcome,
      _execute_check_hedge_compliance, govMaxHedgeRatio, lastStatus,
      hc2, hc3, hp76, hp80]

/-- C6 amended: resolving the same PendingApproval twice silently succeeds:
process_approval ignores its context and key arguments, never mutates or
marks the snapshot, and on an approved decision unconditionally returns the
normal success outcome — so a repeated resolution returns the identical
normal success instead of an error or a documented no-op. -/
theorem C6_double_resolution_amended :
    ∀ (ctx : Ctx) (api_key : String) (st : PendingState),
      process_approval "approved" ctx api_key st = node_handle_approval "approved" st
      ∧ lastStatus (process_approval "approved" ctx api_key st).thinking_steps = some "success"
      ∧ process_approval "approved" ctx api_key st ≠ noopOutcome st := by
  intro ctx key st
  refine ⟨rfl, ?_, ?_⟩
  · simp only [process_approval, node_handle_approval, if_pos rfl]
    exact lastStatus_append_one _ _
  · intro h
    have hts : (process_approval "approved" ctx key st).thinking_steps = st.thinking_steps := by
      rw [h]
      rfl
    simp only [process_approval, node_handle_approval, if_pos rfl] at hts
    have := congrArg List.length hts
    simp at this

/-- C7: a risk context missing a required field makes the stress calculator
raise (modelled as an error value, the KeyError of the source standing for
the MissingContextError of the specification), and the calculate node treats
it as fatal for the turn: no retry, an error step recording the failure
message, and a direct transition to RESPOND. -/
theorem C7_missing_context_fatal :
    (∀ (ctx : Ctx) (p : Params), ctx.total_assets = none →
      _calculate_stress ctx p = Except.error "KeyError: total_assets")
    ∧ ∀ (s : AgentState) (e : String), s.intent = some "stress" →
        _calculate_stress s.ctx s.params = Except.error e →
        (_node_calculate s).current_node = NodeType.respond
        ∧ (_node_calculate s).calculation_result = s.calculation_result
        ∧ lastStatus (_node_calculate s).thinking_steps = some "error"
        ∧ lastMessage (_node_calculate s).thinking_steps = some ("Calculation failed: " ++ e) := by
  constructor
  · intro ctx p h
    unfold _calculate_stress
    rw [h]
    rfl
  · intro s e hi hc
    refine ⟨?_, ?_, ?_, ?_⟩ <;>
      simp [_node_calculate, pushStep, hi, hc, setLastStep_append_one,
        lastStatus_append_one, lastMessage_append_one]

/-- C7 witness: the stress-intent state with an empty risk context errors on
the first missing field and jumps to RESPOND with the failure message. -/
theorem C7_missing_context_fatal_witness :
    stressNoCtxState.intent = some "stress"
    ∧ _calculate_stress stressNoCtxState.ctx stressNoCtxState.params
        = Except.error "KeyError: total_assets"
    ∧ (_node_calculate stressNoCtxState).current_node = NodeType.respond
    ∧ lastMessage (_node_calculate stressNoCtxState).thinking_steps
        = some ("Calculation failed: " ++ "KeyError: total_assets") := by
  have h1 : stressNoCtxState.intent = some "stress" := rfl
  have h2 := C7_missing_context_fatal.1 stressNoCtxState.ctx stressNoCtxState.params rfl
  have h3 := C7_missing_context_fatal.2 stressNoCtxState "KeyError: total_assets" h1 h2
  exact ⟨h1, h2, h3.1, h3.2.2.2⟩

/-- C8: the respond node catches every failure of the external language model
call: it always produces a final response (no exception escapes to the
caller), and on a failure with text e the final response is the apology
message and the step is recorded as an error. -/
theorem C8_respond_errors_caught :
    ∀ (s : AgentState) (llm : Except String String),
      (_node_respond llm s).final_response.isSome = true
      ∧ ∀ e : String, llm = Except.error e →
          (_node_respond llm s).final_response
            = some ("I apologize, but I encountered an error: " ++ e)
          ∧ lastStatus (_node_respond llm s).thinking_steps = some "error" := by
  intro s llm
  cases llm with
  | ok v =>
    exact ⟨by simp [_node_respond, pushStep], fun e he => by simp at he⟩
  | error e0 =>
    refine ⟨by simp [_node_respond, pushStep], fun e he => ?_⟩
    injection he with h
    subst h
    constructor
    · simp [_node_respond, pushStep]
    · simp [_node_respond, pushStep, setLastStep_append_one, lastStatus_append_one]

/-- C8 witness: a failing model call with text boom yields the apology as the
final response. -/
theorem C8_respond_errors_caught_witness :
    (_node_respond (Except.error "boom") (initState [] {})).final_response
      = some ("I apologize, but I encountered an error: " ++ "boom") :=
  ((C8_respond_errors_caught (initState [] {}) (Except.error "boom")).2 "boom" rfl).1

/-- C9: in the governed tool-execution step, a tool parameter ratio of
exactly 0.0 with no hedge_ratio key is discarded by the Python or-fallback,
so the compliance check runs with the default 0.70; any strictly positive
ratio is used as given. -/
theorem C9_zero_ratio_fallback :
    ∀ (ctx : Ctx) (ht : Option String),
      (node_execute_tool_check ctx
        { ratio := some 0, hedge_ratio := none, hedge_type := ht }).proposed_ratio = 70 / 100
      ∧ ∀ (v : ℚ) (hr : Option ℚ), 0 < v →
          (node_execute_tool_check ctx
            { ratio := some v, hedge_ratio := hr, hedge_type := ht }).proposed_ratio = v := by
  intro ctx ht
  constructor
  · simp [node_execute_tool_check, pyOrQ, execute_check_proposed]
  · intro v hr hv
    simp [node_execute_tool_check, pyOrQ, ne_of_gt hv, execute_check_proposed]

/-- C9 witness: ratio 0.85 is used as given, ratio 0.0 falls back to 0.70. -/
theorem C9_zero_ratio_fallback_witness :
    (0 : ℚ) < 85 / 100
    ∧ (node_execute_tool_check {}
        { ratio := some (85 / 100), hedge_ratio := none, hedge_type := none }).proposed_ratio
        = 85 / 100
    ∧ (node_execute_tool_check {}
        { ratio := some 0, hedge_ratio := none, hedge_type := none }).proposed_ratio = 70 / 100 := by
  have h := C9_zero_ratio_fallback {} none
  exact ⟨by norm_num, h.2 (85 / 100) none (by norm_num), h.1⟩

/-- C10: whenever the deterministic extractor finds an equity-shock number,
the extracted shock is at most 0: a negative captured value n is returned as
n/100 and a nonnegative captured value n is negated to -n/100, so the stress
calculation can never receive a positive equity shock from deterministic
extraction. -/
theorem C10_equity_shock_nonpositive :
    ∀ text : List Char,
      (∀ v : ℚ, _extract_equity_shock text = some v → v ≤ 0)
      ∧ ∀ n : ℤ, findEquityNum (pyLower text) = some n →
          (n < 0 → _extract_equity_shock text = some ((n : ℚ) / 100))
          ∧ (0 ≤ n → _extract_equity_shock text = some (-(n : ℚ) / 100)) := by
  intro text
  constructor
  · intro v hv
    unfold _extract_equity_shock at hv
    cases hfind : findEquityNum (pyLower text) with
    | none => rw [hfind] at hv; simp at hv
    | some n =>
      rw [hfind] at hv
      simp only [Option.map_some', Option.some.injEq] at hv
      by_cases hn : n < 0
      · rw [if_pos hn] at hv
        rw [← hv]
        have hnq : (n : ℚ) < 0 := by exact_mod_cast hn
        exact le_of_lt (div_neg_of_neg_of_pos hnq (by norm_num))
      · rw [if_neg hn] at hv
        rw [← hv]
        have hnq : (0 : ℚ) ≤ (n : ℚ) := by exact_mod_cast not_lt.mp hn
        have : (0 : ℚ) ≤ (n : ℚ) / 100 := div_nonneg hnq (by norm_num)
        rw [neg_div]
        linarith
  · intro n hfind
    constructor
    · intro hn
      unfold _extract_equity_shock
      rw [hfind]
      simp only [Option.map_some', Option.some.injEq]
      rw [if_pos hn]
    · intro hn
      unfold _extract_equity_shock
      rw [hfind]
      simp only [Option.map_some', Option.some.injEq]
      rw [if_neg (not_lt.mpr hn)]

/-- C10 witness: the text equity down 15 percent captures the positive value
15, which is negated to -0.15, a nonpositive shock. -/
theorem C10_equity_shock_nonpositive_witness :
    findEquityNum (pyLower equityShockQuery) = some 15
    ∧ _extract_equity_shock equityShockQuery = some (-(15 : ℚ) / 100)
    ∧ (-(15 : ℚ) / 100 : ℚ) ≤ 0 := by
  have hf : findEquityNum (pyLower equityShockQuery) = some 15 := by decide
  have h := C10_equity_shock_nonpositive equityShockQuery
  have h2 := (h.2 15 hf).2 (by norm_num)
  exact ⟨hf, h2, h.1 _ h2⟩

end HooppRisk
